import Mathlib

/-!
Shallow embedding of the FreshRSS Google Reader API client
(`src/plugins/freshrss/skills/freshrss/lib/client.py`).

HTTP transport is abstracted as a `Server`: a record of per-endpoint
response functions.  `Except.error ()` on an endpoint models a
transport-level failure (httpx.RequestError: DNS, connection refused,
timeout); `Except.ok (status, payload)` models a completed HTTP exchange
with the given status code.  Each client method is embedded as a pure
function taking the server and the mutable client state
(`_auth_token` / `_action_token`) and returning the result, the new
state, and the ordered list of HTTP calls performed.  Python exceptions
become `Except.error` with a `ClientError` tag: `authenticationError`
(AuthenticationError), `apiError status?` (APIError with optional
status code), and `transportError` for an httpx.RequestError that the
method does not catch and therefore propagates to the caller.
-/

deriving instance DecidableEq for Except

namespace FreshRSS

/-- Lookup in a JSON-object-like dict, `d.get(k)` in Python.  A dict
parsed from JSON has unique keys; first match. -/
def dictGet (d : List (String × String)) (k : String) : Option String :=
  (d.find? (fun p => p.1 = k)).map (·.2)

/-- `Article` model (fields used by the client; `canonical` and
`alternate` are lists of JSON dicts, modelled as association lists). -/
structure Article where
  id : String
  title : String
  published : Int
  updated : Option Int := none
  canonical : List (List (String × String)) := []
  alternate : List (List (String × String)) := []
  deriving Repr, DecidableEq

/-- `Article.link`: `canonical[0].get("href")` if `canonical` is
non-empty, else `alternate[0].get("href")` if `alternate` is non-empty,
else `None`. -/
def Article.link (a : Article) : Option String :=
  match a.canonical with
  | c :: _ => dictGet c "href"
  | [] =>
    match a.alternate with
    | alt :: _ => dictGet alt "href"
    | [] => none

/-- `StreamContents` response model. -/
structure StreamContents where
  id : String
  title : Option String := none
  updated : Option Int := none
  items : List Article := []
  continuation : Option String := none
  deriving Repr, DecidableEq

def STATE_READ : String := "user/-/state/com.google/read"
def STATE_STARRED : String := "user/-/state/com.google/starred"
def STATE_READING_LIST : String := "user/-/state/com.google/reading-list"

/-- The client's mutable session state: `_auth_token` and
`_action_token`. -/
structure ClientState where
  auth_token : Option String := none
  action_token : Option String := none
  deriving Repr, DecidableEq

/-- One HTTP request issued by the client, as observed by a mock
transport. -/
inductive HttpCall where
  | clientLogin
  | tokenFetch
  | streamContents (streamId : String) (n : Int) (c : Option String) (xt : Option String)
  | itemsContents (i : String)
  | editTagPost (formData : List (String × String))
  deriving Repr, DecidableEq

/-- Errors escaping a client method: `AuthenticationError`, `APIError`
(with its optional status code), or an uncaught httpx transport
exception propagating through the method. -/
inductive ClientError where
  | authenticationError
  | apiError (status : Option Nat)
  | transportError
  deriving Repr, DecidableEq

/-- Abstract server/transport: one response function per endpoint.
`Except.error ()` is a transport failure, `Except.ok` a completed HTTP
exchange (status code and payload).  The stream-contents payload is the
parsed JSON. -/
structure Server where
  login : Except Unit (Nat × String)
  token : Except Unit (Nat × String)
  stream : String → Int → Option String → Option String → Except Unit (Nat × StreamContents)
  items : String → Except Unit (Nat × List Article)
  editTag : List (String × String) → Except Unit (Nat × String)

/-- `response.raise_for_status()` passes exactly on a 2xx status. -/
def is2xx (status : Nat) : Bool := 200 ≤ status && status < 300

/-- Python truthiness filter for optional string parameters
(`if continuation: params["c"] = continuation`): `None` and the empty
string are falsy. -/
def optTruthy : Option String → Option String
  | none => none
  | some s => if s.data.isEmpty then none else some s

/-- `not stream.continuation` in Python: `None` and `""` are falsy. -/
def contIsTruthy : Option String → Bool
  | none => false
  | some s => !s.data.isEmpty

/-- Python `str.isspace` characters relevant to `str.strip()`. -/
def pyIsSpace (c : Char) : Bool :=
  c = ' ' || c = '\t' || c = '\n' || c = '\r' || c = '\x0b' || c = '\x0c'

/-- `str.strip()` on the character list: drop leading and trailing
whitespace. -/
def stripChars (l : List Char) : List Char :=
  ((l.dropWhile pyIsSpace).reverse.dropWhile pyIsSpace).reverse

/-- `str.strip()`. -/
def pyStrip (s : String) : String := String.mk (stripChars s.data)

/-- `str.split("\n")` on the character list: `[""]` for the empty
string, and one (possibly empty) segment per newline-separated run. -/
def splitOnNlChars : List Char → List (List Char)
  | [] => [[]]
  | c :: cs =>
    match splitOnNlChars cs with
    | [] => [[]]
    | h :: t => if c = '\n' then [] :: h :: t else (c :: h) :: t

/-- `str.split("\n")`. -/
def pySplitLines (s : String) : List String :=
  (splitOnNlChars s.data).map String.mk

/-- `line.split("=", 1)` guarded by `"=" in line`: split on the first
`=`, or `none` when the line has no `=`. -/
def splitFirstEqChars : List Char → Option (List Char × List Char)
  | [] => none
  | c :: cs =>
    if c = '=' then some ([], cs)
    else
      match splitFirstEqChars cs with
      | some (k, v) => some (c :: k, v)
      | none => none

/-- `line.split("=", 1)` as a string operation. -/
def splitFirstEq (line : String) : Option (String × String) :=
  (splitFirstEqChars line.data).map (fun p => (String.mk p.1, String.mk p.2))

/-- The key/value pairs parsed from the login response body:
`response.text.strip().split("\n")`, keeping only lines containing
`=`, each split on the first `=`. -/
def parseAuthBody (body : String) : List (String × String) :=
  (pySplitLines (pyStrip body)).filterMap splitFirstEq

/-- Python dict semantics for repeated assignment `d[k] = v`:
the last binding of a key wins. -/
def dictLast (pairs : List (String × String)) (k : String) : Option String :=
  pairs.foldl (fun acc p => if p.1 = k then some p.2 else acc) none

/-- `FreshRSSClient.authenticate`: POST to `accounts/ClientLogin`;
non-2xx and transport failures both raise `AuthenticationError`; the
body is parsed as newline-delimited `key=value` lines and the `Auth`
key must be present; on success the token is stored and returned. -/
def authenticate (srv : Server) (st : ClientState) :
    Except ClientError (String × ClientState) × List HttpCall :=
  match srv.login with
  | .error _ => (.error .authenticationError, [.clientLogin])
  | .ok (status, body) =>
    if is2xx status then
      match dictLast (parseAuthBody body) "Auth" with
      | some tok => (.ok (tok, { st with auth_token := some tok }), [.clientLogin])
      | none => (.error .authenticationError, [.clientLogin])
    else (.error .authenticationError, [.clientLogin])

/-- `FreshRSSClient._ensure_authenticated`: authenticate only when no
auth token is cached. -/
def ensureAuthenticated (srv : Server) (st : ClientState) :
    Except ClientError ClientState × List HttpCall :=
  match st.auth_token with
  | some _ => (.ok st, [])
  | none =>
    match authenticate srv st with
    | (.ok (_, st'), calls) => (.ok st', calls)
    | (.error e, calls) => (.error e, calls)

/-- `FreshRSSClient.get_token`: ensure auth, GET `reader/api/0/token`;
a non-2xx status raises `APIError` with the status; a transport failure
is not caught and propagates; on success the trimmed body is stored as
the action token and returned. -/
def get_token (srv : Server) (st : ClientState) :
    Except ClientError (String × ClientState) × List HttpCall :=
  match ensureAuthenticated srv st with
  | (.error e, calls) => (.error e, calls)
  | (.ok st1, calls) =>
    match srv.token with
    | .error _ => (.error .transportError, calls ++ [.tokenFetch])
    | .ok (status, body) =>
      if is2xx status then
        (.ok (pyStrip body, { st1 with action_token := some (pyStrip body) }),
          calls ++ [.tokenFetch])
      else (.error (.apiError (some status)), calls ++ [.tokenFetch])

/-- `FreshRSSClient._ensure_action_token`: unconditionally fetch a
fresh token via `get_token`. -/
def ensureActionToken (srv : Server) (st : ClientState) :
    Except ClientError (String × ClientState) × List HttpCall :=
  get_token srv st

/-- `FreshRSSClient.get_stream_contents`: ensure auth, GET
`stream/contents/{id}` with `n=count` and the truthy optional params
`c` and `xt`; non-2xx raises `APIError`; transport failure propagates. -/
def get_stream_contents (srv : Server) (st : ClientState) (stream_id : String)
    (count : Int) (continuation : Option String) (exclude_target : Option String) :
    Except ClientError (StreamContents × ClientState) × List HttpCall :=
  match ensureAuthenticated srv st with
  | (.error e, calls) => (.error e, calls)
  | (.ok st1, calls) =>
    match srv.stream stream_id count (optTruthy continuation) (optTruthy exclude_target) with
    | .error _ =>
      (.error .transportError,
        calls ++ [.streamContents stream_id count (optTruthy continuation) (optTruthy exclude_target)])
    | .ok (status, sc) =>
      if is2xx status then
        (.ok (sc, st1),
          calls ++ [.streamContents stream_id count (optTruthy continuation) (optTruthy exclude_target)])
      else
        (.error (.apiError (some status)),
          calls ++ [.streamContents stream_id count (optTruthy continuation) (optTruthy exclude_target)])

/-- `feed_id if feed_id else STATE_READING_LIST` (Python truthiness). -/
def streamIdFor (feed_id : Option String) : String :=
  match feed_id with
  | some f => if f.isEmpty then STATE_READING_LIST else f
  | none => STATE_READING_LIST

/-- The `while len(articles) < limit` pagination loop of
`FreshRSSClient.get_unread_articles`:  each iteration requests a page
of `min(limit - len(articles), 100)` items, appends the returned items,
and stops when the page's continuation token is falsy or the page is
short (`len(items) < batch_size`); otherwise it carries the returned
continuation token into the next request. -/
def unreadLoop (srv : Server) (st : ClientState) (stream_id : String) (limit : Int)
    (acc : List Article) (continuation : Option String) :
    Except ClientError (List Article × ClientState) × List HttpCall :=
  if h : (acc.length : Int) < limit then
    match get_stream_contents srv st stream_id
        (min (limit - (acc.length : Int)) 100) continuation (some STATE_READ) with
    | (.error e, calls) => (.error e, calls)
    | (.ok (stream, st1), calls) =>
      if hbrk : contIsTruthy stream.continuation = false ∨
          (stream.items.length : Int) < min (limit - (acc.length : Int)) 100 then
        (.ok (acc ++ stream.items, st1), calls)
      else
        (fun r => (r.1, calls ++ r.2))
          (unreadLoop srv st1 stream_id limit (acc ++ stream.items) stream.continuation)
  else (.ok (acc, st), [])
termination_by (limit - (acc.length : Int)).toNat
decreasing_by
  push_neg at hbrk
  simp only [List.length_append, Nat.cast_add]
  omega

/-- `FreshRSSClient.get_unread_articles`: run the pagination loop from
an empty accumulator and no continuation token against the requested
stream (`feed_id` if truthy, else the reading-list tag), excluding read
articles, then truncate with `articles[:limit]`. -/
def get_unread_articles (srv : Server) (st : ClientState) (limit : Int)
    (feed_id : Option String) :
    Except ClientError (List Article × ClientState) × List HttpCall :=
  match unreadLoop srv st (streamIdFor feed_id) limit [] none with
  | (.ok (articles, st1), calls) => (.ok (articles.take limit.toNat, st1), calls)
  | (.error e, calls) => (.error e, calls)

/-- `FreshRSSClient.get_article_by_id`: ensure auth, POST to
`stream/items/contents`; only `httpx.HTTPStatusError` is caught (a
non-2xx status yields `None`); a transport failure propagates; on a
2xx response, the first element of `items` if present, else `None`. -/
def get_article_by_id (srv : Server) (st : ClientState) (article_id : String) :
    Except ClientError (Option Article × ClientState) × List HttpCall :=
  match ensureAuthenticated srv st with
  | (.error e, calls) => (.error e, calls)
  | (.ok st1, calls) =>
    match srv.items article_id with
    | .error _ => (.error .transportError, calls ++ [.itemsContents article_id])
    | .ok (status, items) =>
      if is2xx status then
        match items with
        | a :: _ => (.ok (some a, st1), calls ++ [.itemsContents article_id])
        | [] => (.ok (none, st1), calls ++ [.itemsContents article_id])
      else (.ok (none, st1), calls ++ [.itemsContents article_id])

/-- The form body built by `_edit_tag`: `T=<token>` first, then one
`i=<id>` pair per article in input order, then at most one `a=` and one
`r=` pair (Python truthiness on the optional tags). -/
def editTagFormData (token : String) (article_ids : List String)
    (add_tag remove_tag : Option String) : List (String × String) :=
  [("T", token)] ++ article_ids.map (fun i => ("i", i)) ++
    (match optTruthy add_tag with | some t => [("a", t)] | none => []) ++
    (match optTruthy remove_tag with | some t => [("r", t)] | none => [])

/-- `FreshRSSClient._edit_tag`: no-op success on an empty ID list;
otherwise ensure auth, fetch a fresh action token, POST the form body
to `edit-tag`; non-2xx raises `APIError` with the status, a transport
failure on the POST propagates, and a 2xx response succeeds exactly
when the body trims to the literal `OK`. -/
def edit_tag (srv : Server) (st : ClientState) (article_ids : List String)
    (add_tag remove_tag : Option String) :
    Except ClientError (Bool × ClientState) × List HttpCall :=
  if article_ids.isEmpty then (.ok (true, st), [])
  else
    match ensureAuthenticated srv st with
    | (.error e, calls) => (.error e, calls)
    | (.ok st1, calls1) =>
      match ensureActionToken srv st1 with
      | (.error e, calls2) => (.error e, calls1 ++ calls2)
      | (.ok (token, st2), calls2) =>
        match srv.editTag (editTagFormData token article_ids add_tag remove_tag) with
        | .error _ =>
          (.error .transportError,
            calls1 ++ calls2 ++ [.editTagPost (editTagFormData token article_ids add_tag remove_tag)])
        | .ok (status, body) =>
          if is2xx status then
            (.ok ((pyStrip body == "OK"), st2),
              calls1 ++ calls2 ++ [.editTagPost (editTagFormData token article_ids add_tag remove_tag)])
          else
            (.error (.apiError (some status)),
              calls1 ++ calls2 ++ [.editTagPost (editTagFormData token article_ids add_tag remove_tag)])

/-- `FreshRSSClient.mark_as_read`. -/
def mark_as_read (srv : Server) (st : ClientState) (article_ids : List String) :
    Except ClientError (Bool × ClientState) × List HttpCall :=
  edit_tag srv st article_ids (some STATE_READ) none

/-- `FreshRSSClient.mark_as_starred`. -/
def mark_as_starred (srv : Server) (st : ClientState) (article_ids : List String) :
    Except ClientError (Bool × ClientState) × List HttpCall :=
  edit_tag srv st article_ids (some STATE_STARRED) none

/-- Number of calls in a trace matching a predicate (the call-count
assertions a mock transport would make). -/
def countCalls (p : HttpCall → Bool) (calls : List HttpCall) : Nat :=
  (calls.filter p).length

def isLogin : HttpCall → Bool
  | .clientLogin => true
  | _ => false

def isTokenFetch : HttpCall → Bool
  | .tokenFetch => true
  | _ => false

def isStreamCall : HttpCall → Bool
  | .streamContents _ _ _ _ => true
  | _ => false

/-- `n` consecutive `_edit_tag` calls with the same arguments,
threading the client state; stops at the first raised error. -/
def editTagN (srv : Server) (article_ids : List String)
    (add_tag remove_tag : Option String) :
    Nat → ClientState → Except ClientError ClientState × List HttpCall
  | 0, st => (.ok st, [])
  | n + 1, st =>
    match edit_tag srv st article_ids add_tag remove_tag with
    | (.ok (_, st1), calls) =>
      (fun r => (r.1, calls ++ r.2)) (editTagN srv article_ids add_tag remove_tag n st1)
    | (.error e, calls) => (.error e, calls)

/-- A server that always supplies full (possibly overshooting) pages
carrying continuation tokens (i.e. enough articles exist upstream). -/
def fullPageServer (srv : Server) : Prop :=
  ∀ sid n c xt, 1 ≤ n →
    ∃ page, srv.stream sid n c xt = .ok (200, page) ∧
      n ≤ (page.items.length : Int) ∧ contIsTruthy page.continuation = true

/-- A fixed article used by the mock servers. -/
def artA : Article := { id := "a", title := "t", published := 0 }

/-- An article carrying both a canonical and an alternate link. -/
def artLinks : Article :=
  { id := "l", title := "t", published := 0,
    canonical := [[("href", "https://c.example/1")]],
    alternate := [[("href", "https://a.example/1")]] }

/-- A client state with a cached auth token. -/
def stAuthed : ClientState := { auth_token := some "tok" }

/-- Mock server: everything succeeds, stream pages are always full and
carry a continuation token. -/
def fullSrv : Server where
  login := .ok (200, "SID=a\nLSID=b\nAuth=tok123\n")
  token := .ok (200, "tok2\n")
  stream := fun _ n _ _ =>
    .ok (200, { id := "s", items := List.replicate n.toNat artA, continuation := some "c" })
  items := fun _ => .ok (200, [artA])
  editTag := fun _ => .ok (200, "OK\n")

/-- Mock server: stream pages carry a continuation token but zero
items (the misbehaving server of the termination property). -/
def zeroItemSrv : Server where
  login := .ok (200, "SID=a\nLSID=b\nAuth=tok123\n")
  token := .ok (200, "tok2\n")
  stream := fun _ _ _ _ => .ok (200, { id := "s", items := [], continuation := some "ct" })
  items := fun _ => .ok (200, [])
  editTag := fun _ => .ok (200, "OK\n")

/-- Mock server: every request fails at the transport level. -/
def transportFailSrv : Server where
  login := .error ()
  token := .error ()
  stream := fun _ _ _ _ => .error ()
  items := fun _ => .error ()
  editTag := fun _ => .error ()

/-- Mock server: login succeeds with a body that omits the `Auth` key. -/
def noAuthKeySrv : Server where
  login := .ok (200, "SID=a\nLSID=b\n")
  token := .ok (200, "tok2\n")
  stream := fun _ _ _ _ => .ok (200, { id := "s" })
  items := fun _ => .ok (200, [])
  editTag := fun _ => .ok (200, "OK\n")

/-- Mock server: every endpoint replies with HTTP 401. -/
def deniedSrv : Server where
  login := .ok (401, "")
  token := .ok (401, "denied")
  stream := fun _ _ _ _ => .ok (401, { id := "s" })
  items := fun _ => .ok (401, [])
  editTag := fun _ => .ok (401, "denied")

/-- With a cached auth token, the ensure-authenticated guard is a
no-op: no HTTP call and no state change. -/
lemma ensureAuthenticated_cached (srv : Server) (st : ClientState) (t : String)
    (hst : st.auth_token = some t) :
    ensureAuthenticated srv st = (.ok st, []) := by
  simp [ensureAuthenticated, hst]

/-- With a cached auth token and a 200 token endpoint, `get_token`
performs exactly one token fetch and stores the trimmed body. -/
lemma get_token_cached (srv : Server) (st : ClientState) (t tb : String)
    (hst : st.auth_token = some t) (htok : srv.token = .ok (200, tb)) :
    get_token srv st =
      (.ok (pyStrip tb, { st with action_token := some (pyStrip tb) }), [.tokenFetch]) := by
  simp [get_token, ensureAuthenticated_cached srv st t hst, htok, is2xx]

/-- Execution of `_edit_tag` on a non-empty ID list with a cached auth
token, a 200 token endpoint, and a completed edit-tag POST. -/
lemma edit_tag_run (srv : Server) (st : ClientState) (t tb : String)
    (ids : List String) (add_tag remove_tag : Option String) (status : Nat) (body : String)
    (hst : st.auth_token = some t) (htok : srv.token = .ok (200, tb)) (hids : ids ≠ [])
    (hres : srv.editTag (editTagFormData (pyStrip tb) ids add_tag remove_tag) = .ok (status, body)) :
    edit_tag srv st ids add_tag remove_tag =
      if is2xx status then
        (.ok ((pyStrip body == "OK"), { st with action_token := some (pyStrip tb) }),
         [.tokenFetch, .editTagPost (editTagFormData (pyStrip tb) ids add_tag remove_tag)])
      else
        (.error (.apiError (some status)),
         [.tokenFetch, .editTagPost (editTagFormData (pyStrip tb) ids add_tag remove_tag)]) := by
  obtain ⟨x, xs, rfl⟩ := List.exists_cons_of_ne_nil hids
  rw [edit_tag]
  rw [if_neg (by simp)]
  simp only [ensureAuthenticated_cached srv st t hst, ensureActionToken,
    get_token_cached srv st t tb hst htok, hres]
  rcases h2 : is2xx status <;> simp [h2]

/-- C6: `_edit_tag` (and hence `mark_as_read` / `mark_as_starred`) on an
empty article-ID list performs zero HTTP calls of any kind, returns
success (`True`), and leaves the session state unchanged. -/
theorem edit_tag_empty_noop (srv : Server) (st : ClientState)
    (add_tag remove_tag : Option String) :
    edit_tag srv st [] add_tag remove_tag = (.ok (true, st), [])
    ∧ mark_as_read srv st [] = (.ok (true, st), [])
    ∧ mark_as_starred srv st [] = (.ok (true, st), []) := by
  refine ⟨?_, ?_, ?_⟩ <;> simp [edit_tag, mark_as_read, mark_as_starred]

/-- C10: for `limit ≤ 0` the accumulation loop's entry condition is
false from the start, so `get_unread_articles` returns the empty list
and performs no HTTP requests at all. -/
theorem get_unread_articles_nonpositive_limit (srv : Server) (st : ClientState)
    (feed_id : Option String) (limit : Int) (hle : limit ≤ 0) :
    get_unread_articles srv st limit feed_id = (.ok ([], st), []) := by
  rw [get_unread_articles, unreadLoop.eq_def]
  rw [dif_neg (by simp only [List.length_nil, Nat.cast_zero]; omega)]
  simp

/-- C10 witness at `limit = -3`. -/
theorem get_unread_articles_nonpositive_limit_witness :
    get_unread_articles fullSrv stAuthed (-3) none = (.ok ([], stAuthed), []) :=
  get_unread_articles_nonpositive_limit fullSrv stAuthed none (-3) (by decide)

/-- C4: when `canonical` is non-empty, the derived `link` is the first
canonical entry's `href` (the `alternate` list is never consulted), and
`link` is `None` exactly when both lists are empty or the selected
entry carries no `href`. -/
theorem article_link_prefers_canonical (a : Article) (c : List (String × String))
    (cs : List (List (String × String))) (hc : a.canonical = c :: cs)
    (ha : a.alternate ≠ []) :
    a.link = dictGet c "href"
    ∧ ∀ b : Article, b.link = none ↔
        ((b.canonical = [] ∧ b.alternate = []) ∨
         (∃ d ds, b.canonical = d :: ds ∧ dictGet d "href" = none) ∨
         (b.canonical = [] ∧ ∃ d ds, b.alternate = d :: ds ∧ dictGet d "href" = none)) := by
  constructor
  · unfold Article.link
    rw [hc]
  · intro b
    rcases hbc : b.canonical with _ | ⟨d, ds⟩ <;>
      rcases hba : b.alternate with _ | ⟨e, es⟩ <;>
        simp [Article.link, hbc, hba]

/-- C4 witness on a concrete article carrying both link kinds. -/
theorem article_link_prefers_canonical_witness :
    artLinks.link = dictGet [("href", "https://c.example/1")] "href" :=
  (article_link_prefers_canonical artLinks [("href", "https://c.example/1")] []
    rfl (by decide)).1

/-- C3 counterexample: a transport-level failure on the items-contents
call propagates as an uncaught exception out of `get_article_by_id`;
it is not folded into the `None` ("not found") outcome the claim
describes. -/
theorem get_article_by_id_transport_raises :
    (get_article_by_id transportFailSrv stAuthed "123").1 = .error .transportError
    ∧ (get_article_by_id transportFailSrv stAuthed "123").1 ≠ .ok (none, stAuthed) := by
  constructor <;> decide

/-- C3 (amended): with the session authenticated, `get_article_by_id`
returns the first element of `items` on a 2xx response (`None` when
`items` is empty), folds a non-2xx HTTP status into `None`, but lets a
transport-level failure propagate as an exception. -/
theorem get_article_by_id_spec (srv : Server) (st : ClientState) (t article_id : String)
    (hst : st.auth_token = some t) :
    (∀ status items, srv.items article_id = .ok (status, items) → is2xx status = true →
        (get_article_by_id srv st article_id).1 = .ok (items.head?, st))
    ∧ (∀ status items, srv.items article_id = .ok (status, items) → is2xx status = false →
        (get_article_by_id srv st article_id).1 = .ok (none, st))
    ∧ (srv.items article_id = .error () →
        (get_article_by_id srv st article_id).1 = .error .transportError) := by
  refine ⟨?_, ?_, ?_⟩
  · intro status items hres h2
    cases items <;> simp [get_article_by_id, ensureAuthenticated, hst, hres, h2]
  · intro status items hres h2
    simp [get_article_by_id, ensureAuthenticated, hst, hres, h2]
  · intro hres
    simp [get_article_by_id, ensureAuthenticated, hst, hres]

/-- C3 (amended) witness: a 2xx response with one item yields that
item. -/
theorem get_article_by_id_spec_witness :
    (get_article_by_id fullSrv stAuthed "123").1 = .ok (([artA] : List Article).head?, stAuthed) :=
  (get_article_by_id_spec fullSrv stAuthed "tok" "123" rfl).1 200 [artA] rfl (by decide)

/-- C7: `authenticate` parses the login body into `key=value` lines
split on the first `=`, stores and returns the `Auth` value on a 2xx
response, and raises `AuthenticationError` exactly when the `Auth` key
is absent, the status is non-2xx, or the transport fails; the body
`SID=a\nLSID=b\nAuth=tok123\n` yields the token `tok123`. -/
theorem authenticate_spec (srv : Server) (st : ClientState) :
    (∀ status body tok, srv.login = .ok (status, body) → is2xx status = true →
        dictLast (parseAuthBody body) "Auth" = some tok →
        authenticate srv st = (.ok (tok, { st with auth_token := some tok }), [.clientLogin]))
    ∧ (∀ status body, srv.login = .ok (status, body) → is2xx status = true →
        dictLast (parseAuthBody body) "Auth" = none →
        authenticate srv st = (.error .authenticationError, [.clientLogin]))
    ∧ (∀ status body, srv.login = .ok (status, body) → is2xx status = false →
        authenticate srv st = (.error .authenticationError, [.clientLogin]))
    ∧ (srv.login = .error () →
        authenticate srv st = (.error .authenticationError, [.clientLogin]))
    ∧ dictLast (parseAuthBody "SID=a\nLSID=b\nAuth=tok123\n") "Auth" = some "tok123" := by
  refine ⟨?_, ?_, ?_, ?_, by decide⟩
  · intro status body tok hres h2 hauth
    simp [authenticate, hres, h2, hauth]
  · intro status body hres h2 hauth
    simp [authenticate, hres, h2, hauth]
  · intro status body hres h2
    simp [authenticate, hres, h2]
  · intro hres
    simp [authenticate, hres]

/-- C7 witness: the concrete login scenario of the spec. -/
theorem authenticate_spec_witness :
    authenticate fullSrv stAuthed =
      (.ok ("tok123", { stAuthed with auth_token := some "tok123" }), [.clientLogin]) :=
  (authenticate_spec fullSrv stAuthed).1 200 "SID=a\nLSID=b\nAuth=tok123\n" "tok123"
    rfl (by decide) (by decide)

/-- C5: for a non-empty ID list, the tag edit succeeds with `True`
exactly when the response is 2xx and its body trims to the literal
`OK` (any other 2xx body yields `False`), while a non-2xx status
raises `APIError` carrying that status; and `mark_as_read` of
`["123", "456"]` against a mock replying `OK\n` returns `True`. -/
theorem edit_tag_ok_iff (srv : Server) (st : ClientState) (t tb : String)
    (ids : List String) (add_tag remove_tag : Option String)
    (hst : st.auth_token = some t) (htok : srv.token = .ok (200, tb))
    (hids : ids ≠ []) :
    (∀ status body,
        srv.editTag (editTagFormData (pyStrip tb) ids add_tag remove_tag) = .ok (status, body) →
        (is2xx status = true →
          (edit_tag srv st ids add_tag remove_tag).1 =
            .ok ((pyStrip body == "OK"), { st with action_token := some (pyStrip tb) }))
        ∧ (is2xx status = false →
          (edit_tag srv st ids add_tag remove_tag).1 = .error (.apiError (some status))))
    ∧ (mark_as_read fullSrv stAuthed ["123", "456"]).1 =
        .ok (true, { stAuthed with action_token := some "tok2" }) := by
  refine ⟨?_, by decide⟩
  intro status body hres
  constructor <;> intro h2 <;>
    rw [edit_tag_run srv st t tb ids add_tag remove_tag status body hst htok hids hres] <;>
      simp [h2]

/-- C5 witness: a 200 response with body `OK\n` yields `True`. -/
theorem edit_tag_ok_iff_witness :
    (edit_tag fullSrv stAuthed ["123"] (some STATE_READ) none).1 =
      .ok ((pyStrip "OK\n" == "OK"), { stAuthed with action_token := some (pyStrip "tok2\n") }) :=
  ((edit_tag_ok_iff fullSrv stAuthed "tok" "tok2\n" ["123"] (some STATE_READ) none rfl rfl
    (by decide)).1 200 "OK\n" rfl).1 (by decide)

/-- C8: the ensure-authenticated guard is a no-op once a token is
cached, so authenticating twice performs the login request only once;
and a stale cached token surfaces as a generic `APIError` (here on the
token endpoint), not as a re-authentication. -/
theorem ensure_authenticated_once (srv : Server) (st : ClientState) :
    (∀ t, st.auth_token = some t → ensureAuthenticated srv st = (.ok st, []))
    ∧ (∀ st1 calls, ensureAuthenticated srv st = (.ok st1, calls) →
        ensureAuthenticated srv st1 = (.ok st1, [])
        ∧ countCalls isLogin (calls ++ (ensureAuthenticated srv st1).2) = countCalls isLogin calls
        ∧ countCalls isLogin calls ≤ 1)
    ∧ (∀ t status body, st.auth_token = some t → srv.token = .ok (status, body) →
        is2xx status = false →
        (get_token srv st).1 = .error (.apiError (some status))
        ∧ countCalls isLogin (get_token srv st).2 = 0) := by
  refine ⟨?_, ?_, ?_⟩
  · intro t hst
    exact ensureAuthenticated_cached srv st t hst
  · intro st1 calls h
    rcases hst : st.auth_token with _ | t
    · rcases hlog : srv.login with _ | ⟨status, body⟩
      · simp [ensureAuthenticated, authenticate, hst, hlog] at h
      · rcases h2 : is2xx status
        · simp [ensureAuthenticated, authenticate, hst, hlog, h2] at h
        · rcases hauth : dictLast (parseAuthBody body) "Auth" with _ | tok
          · simp [ensureAuthenticated, authenticate, hst, hlog, h2, hauth] at h
          · have hrun : ensureAuthenticated srv st =
                (.ok { st with auth_token := some tok }, [.clientLogin]) := by
              simp [ensureAuthenticated, authenticate, hst, hlog, h2, hauth]
            rw [hrun] at h
            simp only [Prod.mk.injEq, Except.ok.injEq] at h
            obtain ⟨hst1, hcalls⟩ := h
            subst hst1
            subst hcalls
            have hcached := ensureAuthenticated_cached srv
              { st with auth_token := some tok } tok rfl
            refine ⟨hcached, ?_, ?_⟩ <;> simp [hcached, countCalls, isLogin]
    · rw [ensureAuthenticated_cached srv st t hst] at h
      simp only [Prod.mk.injEq, Except.ok.injEq] at h
      obtain ⟨hst1, hcalls⟩ := h
      subst hst1
      subst hcalls
      refine ⟨ensureAuthenticated_cached srv st t hst, ?_, ?_⟩ <;>
        simp [ensureAuthenticated_cached srv st t hst, countCalls]
  · intro t status body hst htok h2
    rw [get_token]
    rw [ensureAuthenticated_cached srv st t hst]
    simp [htok, h2, countCalls, isLogin]

/-- C8 witness: a successful login from an empty session, then a
second guard call that performs no further login. -/
theorem ensure_authenticated_once_witness :
    ensureAuthenticated fullSrv { auth_token := some "tok123" } =
      (.ok { auth_token := some "tok123" }, [])
    ∧ countCalls isLogin ([HttpCall.clientLogin] ++
        (ensureAuthenticated fullSrv { auth_token := some "tok123" }).2) =
      countCalls isLogin [HttpCall.clientLogin]
    ∧ countCalls isLogin [HttpCall.clientLogin] ≤ 1 :=
  (ensure_authenticated_once fullSrv {}).2.1 { auth_token := some "tok123" }
    [.clientLogin] (by decide)

/-- With a cached auth token, a 200 token endpoint, and an edit-tag
endpoint that always completes with status 200, `n` consecutive tag
edits perform exactly `n` token fetches. -/
lemma editTagN_token_count (srv : Server) (ids : List String)
    (add_tag remove_tag : Option String) (tb : String)
    (htok : srv.token = .ok (200, tb))
    (hedit : ∀ fd, ∃ body, srv.editTag fd = .ok (200, body))
    (hids : ids ≠ []) :
    ∀ n st t, st.auth_token = some t →
      countCalls isTokenFetch (editTagN srv ids add_tag remove_tag n st).2 = n := by
  intro n
  induction n with
  | zero =>
    intro st t hst
    simp [editTagN, countCalls]
  | succ n ih =>
    intro st t hst
    obtain ⟨body, hbody⟩ := hedit (editTagFormData (pyStrip tb) ids add_tag remove_tag)
    have hrun : edit_tag srv st ids add_tag remove_tag =
        (.ok ((pyStrip body == "OK"), { st with action_token := some (pyStrip tb) }),
         [.tokenFetch, .editTagPost (editTagFormData (pyStrip tb) ids add_tag remove_tag)]) := by
      rw [edit_tag_run srv st t tb ids add_tag remove_tag 200 body hst htok hids hbody]
      norm_num [is2xx]
    have hih := ih { st with action_token := some (pyStrip tb) } t hst
    simp only [editTagN, hrun]
    simp [countCalls, isTokenFetch] at hih ⊢
    omega

/-- C9: a tag edit on a non-empty ID list performs exactly one
action-token fetch, placed immediately before the edit-tag POST (a
cached action token is never reused), and `n` consecutive tag edits
perform `n` token fetches. -/
theorem edit_tag_fresh_action_token (srv : Server) (st : ClientState) (t tb : String)
    (ids : List String) (add_tag remove_tag : Option String)
    (hst : st.auth_token = some t) (htok : srv.token = .ok (200, tb))
    (hedit : ∀ fd, ∃ body, srv.editTag fd = .ok (200, body)) (hids : ids ≠ []) :
    (edit_tag srv st ids add_tag remove_tag).2 =
      [.tokenFetch, .editTagPost (editTagFormData (pyStrip tb) ids add_tag remove_tag)]
    ∧ ∀ n, countCalls isTokenFetch (editTagN srv ids add_tag remove_tag n st).2 = n := by
  obtain ⟨body, hbody⟩ := hedit (editTagFormData (pyStrip tb) ids add_tag remove_tag)
  constructor
  · rw [edit_tag_run srv st t tb ids add_tag remove_tag 200 body hst htok hids hbody]
    norm_num [is2xx]
  · intro n
    exact editTagN_token_count srv ids add_tag remove_tag tb htok hedit hids n st t hst

/-- The login request is the only HTTP call `authenticate` makes. -/
lemma authenticate_calls (srv : Server) (st : ClientState) :
    (authenticate srv st).2 = [.clientLogin] := by
  rcases hlog : srv.login with _ | ⟨status, body⟩
  · simp [authenticate, hlog]
  · rcases h2 : is2xx status
    · simp [authenticate, hlog, h2]
    · rcases hauth : dictLast (parseAuthBody body) "Auth" with _ | tok <;>
        simp [authenticate, hlog, h2, hauth]

/-- The ensure-authenticated guard never issues a stream-contents
request. -/
lemma ensureAuthenticated_no_stream (srv : Server) (st : ClientState) :
    countCalls isStreamCall (ensureAuthenticated srv st).2 = 0 := by
  rcases hst : st.auth_token with _ | t
  · rcases hrun : authenticate srv st with ⟨res, calls⟩
    have hcalls : calls = [.clientLogin] := by
      have h := authenticate_calls srv st
      rw [hrun] at h
      exact h
    subst hcalls
    rcases res with e | ⟨tok, st'⟩ <;>
      simp [ensureAuthenticated, hst, hrun, countCalls, isStreamCall]
  · simp [ensureAuthenticated, hst, countCalls]

lemma countCalls_append (p : HttpCall → Bool) (a b : List HttpCall) :
    countCalls p (a ++ b) = countCalls p a + countCalls p b := by
  simp [countCalls, List.filter_append]

/-- The trace of `get_stream_contents` is the guard's trace, followed
by the stream GET whenever the guard succeeded. -/
lemma get_stream_contents_trace (srv : Server) (st : ClientState) (sid : String)
    (n : Int) (cont xt : Option String) :
    (get_stream_contents srv st sid n cont xt).2 = (ensureAuthenticated srv st).2
    ∨ (get_stream_contents srv st sid n cont xt).2 =
        (ensureAuthenticated srv st).2 ++
          [.streamContents sid n (optTruthy cont) (optTruthy xt)] := by
  rw [get_stream_contents]
  rcases hea : ensureAuthenticated srv st with ⟨res, calls⟩
  rcases res with e | st1
  · left
    rfl
  · rcases hres : srv.stream sid n (optTruthy cont) (optTruthy xt) with _ | ⟨status, sc⟩
    · right
      rfl
    · rcases h2 : is2xx status <;> right <;> simp [h2]

/-- `get_stream_contents` performs at most one stream-contents
request. -/
lemma get_stream_contents_calls_le (srv : Server) (st : ClientState) (sid : String)
    (n : Int) (cont xt : Option String) :
    countCalls isStreamCall (get_stream_contents srv st sid n cont xt).2 ≤ 1 := by
  have h0 := ensureAuthenticated_no_stream srv st
  rcases get_stream_contents_trace srv st sid n cont xt with h | h <;> rw [h]
  · omega
  · rw [countCalls_append, h0]
    simp [countCalls, isStreamCall]

/-- With a cached auth token and a 200 stream response, the stream
fetch returns the page, leaves the state unchanged, and records the
single GET. -/
lemma get_stream_contents_cached (srv : Server) (st : ClientState) (t : String)
    (sid : String) (n : Int) (cont xt : Option String) (page : StreamContents)
    (hst : st.auth_token = some t)
    (hpage : srv.stream sid n (optTruthy cont) (optTruthy xt) = .ok (200, page)) :
    get_stream_contents srv st sid n cont xt =
      (.ok (page, st), [.streamContents sid n (optTruthy cont) (optTruthy xt)]) := by
  rw [get_stream_contents]
  simp only [ensureAuthenticated_cached srv st t hst, hpage]
  norm_num [is2xx]

/-- The pagination loop issues at most `limit - |acc|` stream-contents
requests: every continuing iteration grows the accumulator. -/
lemma unreadLoop_calls_le (srv : Server) (stream_id : String) (limit : Int) :
    ∀ fuel (st : ClientState) (acc : List Article) (cont : Option String),
      (limit - (acc.length : Int)).toNat ≤ fuel →
      countCalls isStreamCall (unreadLoop srv st stream_id limit acc cont).2 ≤
        (limit - (acc.length : Int)).toNat := by
  intro fuel
  induction fuel with
  | zero =>
    intro st acc cont hfuel
    have hge : ¬ ((acc.length : Int) < limit) := by omega
    rw [unreadLoop.eq_def, dif_neg hge]
    simp [countCalls]
  | succ fuel ih =>
    intro st acc cont hfuel
    rw [unreadLoop.eq_def]
    split
    · rename_i hlt
      split
      · rename_i e calls heq
        have hc1 : countCalls isStreamCall calls ≤ 1 := by
          have h := get_stream_contents_calls_le srv st stream_id
            (min (limit - (acc.length : Int)) 100) cont (some STATE_READ)
          rw [heq] at h
          exact h
        have htn : 1 ≤ (limit - (acc.length : Int)).toNat := by omega
        simpa using le_trans hc1 htn
      · rename_i stream st1 calls heq
        have hc1 : countCalls isStreamCall calls ≤ 1 := by
          have h := get_stream_contents_calls_le srv st stream_id
            (min (limit - (acc.length : Int)) 100) cont (some STATE_READ)
          rw [heq] at h
          exact h
        split
        · rename_i hbrk
          have htn : 1 ≤ (limit - (acc.length : Int)).toNat := by omega
          simpa using le_trans hc1 htn
        · rename_i hbrk
          push_neg at hbrk
          obtain ⟨hcont, hlen⟩ := hbrk
          have hrec := ih st1 (acc ++ stream.items) stream.continuation (by
            simp only [List.length_append, Nat.cast_add]
            omega)
          simp only [List.length_append, Nat.cast_add] at hrec
          dsimp only
          rw [countCalls_append]
          omega
    · simp [countCalls]

/-- Against a full-page server with a cached auth token, the loop
succeeds, accumulates at least `limit` articles, and keeps the state
unchanged. -/
lemma unreadLoop_full_exact (srv : Server) (t : String) (stream_id : String) (limit : Int)
    (hfull : fullPageServer srv) :
    ∀ fuel (st : ClientState) (acc : List Article) (cont : Option String),
      (limit - (acc.length : Int)).toNat ≤ fuel →
      st.auth_token = some t → (acc.length : Int) < limit →
      ∃ res calls, unreadLoop srv st stream_id limit acc cont = (.ok (res, st), calls)
        ∧ limit ≤ (res.length : Int) := by
  intro fuel
  induction fuel with
  | zero =>
    intro st acc cont hfuel hst hlt
    exfalso
    omega
  | succ fuel ih =>
    intro st acc cont hfuel hst hlt
    obtain ⟨page, hpage, hplen, hpcont⟩ := hfull stream_id
      (min (limit - (acc.length : Int)) 100) (optTruthy cont)
      (optTruthy (some STATE_READ)) (by omega)
    rw [unreadLoop.eq_def, dif_pos hlt]
    rw [get_stream_contents_cached srv st t stream_id
      (min (limit - (acc.length : Int)) 100) cont (some STATE_READ) page hst hpage]
    have hnbrk : ¬ (contIsTruthy page.continuation = false ∨
        (page.items.length : Int) < min (limit - (acc.length : Int)) 100) := by
      push_neg
      refine ⟨by simp [hpcont], by omega⟩
    dsimp only
    rw [dif_neg hnbrk]
    by_cases hlt2 : (((acc ++ page.items).length : Nat) : Int) < limit
    · obtain ⟨res, calls, hloop, hres⟩ := ih st (acc ++ page.items) page.continuation
        (by simp only [List.length_append, Nat.cast_add]; omega) hst hlt2
      refine ⟨res, [HttpCall.streamContents stream_id (min (limit - (acc.length : Int)) 100)
        (optTruthy cont) (optTruthy (some STATE_READ))] ++ calls, ?_, hres⟩
      rw [hloop]
    · rw [unreadLoop.eq_def, dif_neg hlt2]
      refine ⟨acc ++ page.items, _, rfl, ?_⟩
      simp only [List.length_append, Nat.cast_add] at hlt2 ⊢
      omega

/-- The mock full-page server really is a full-page server. -/
lemma fullSrv_fullPage : fullPageServer fullSrv := by
  intro sid n c xt hn
  refine ⟨{ id := "s", items := List.replicate n.toNat artA, continuation := some "c" },
    rfl, ?_, rfl⟩
  simp only [List.length_replicate]
  omega

/-- C1: for every `limit > 0`, `get_unread_articles` returns at most
`limit` articles (truncation even when the last page overshoots), and
against a server that always supplies full pages with continuation
tokens it returns exactly `limit` articles. -/
theorem get_unread_articles_limit (srv : Server) (st : ClientState) (limit : Int)
    (feed_id : Option String) (hpos : 0 < limit) :
    (∀ arts st1 calls,
        get_unread_articles srv st limit feed_id = (.ok (arts, st1), calls) →
        arts.length ≤ limit.toNat)
    ∧ (∀ t, st.auth_token = some t → fullPageServer srv →
        ∃ arts st1 calls,
          get_unread_articles srv st limit feed_id = (.ok (arts, st1), calls)
          ∧ (arts.length : Int) = limit) := by
  constructor
  · intro arts st1 calls h
    rw [get_unread_articles] at h
    rcases hloop : unreadLoop srv st (streamIdFor feed_id) limit [] none with ⟨res, lcalls⟩
    rw [hloop] at h
    rcases res with e | ⟨articles, st2⟩
    · simp at h
    · simp only [Prod.mk.injEq, Except.ok.injEq] at h
      obtain ⟨⟨harts, -⟩, -⟩ := h
      rw [← harts, List.length_take]
      omega
  · intro t hst hfull
    obtain ⟨res, calls, hloop, hres⟩ := unreadLoop_full_exact srv t (streamIdFor feed_id)
      limit hfull limit.toNat st [] none
      (by simp only [List.length_nil, Nat.cast_zero, sub_zero]; omega)
      hst (by simp only [List.length_nil, Nat.cast_zero]; omega)
    refine ⟨res.take limit.toNat, st, calls, ?_, ?_⟩
    · rw [get_unread_articles, hloop]
    · rw [List.length_take]
      omega

/-- C1 witness against the full-page mock at `limit = 3`. -/
theorem get_unread_articles_limit_witness :
    ∃ arts st1 calls,
      get_unread_articles fullSrv stAuthed 3 none = (.ok (arts, st1), calls)
      ∧ ((arts : List Article).length : Int) = 3 :=
  (get_unread_articles_limit fullSrv stAuthed 3 none (by decide)).2 "tok" rfl fullSrv_fullPage

/-- C2: the pagination loop issues at most `limit` page requests for
every server behaviour, and a zero-item page ends the loop even when
it carries a continuation token: the whole call then consists of that
single page request. -/
theorem unread_pagination_terminates (srv : Server) (st : ClientState)
    (limit : Int) (feed_id : Option String) :
    countCalls isStreamCall (get_unread_articles srv st limit feed_id).2 ≤ limit.toNat
    ∧ (∀ t page, st.auth_token = some t → 0 < limit →
        srv.stream (streamIdFor feed_id) (min limit 100) none (some STATE_READ) =
          .ok (200, page) →
        page.items = [] →
        get_unread_articles srv st limit feed_id =
          (.ok ([], st),
           [.streamContents (streamIdFor feed_id) (min limit 100) none (some STATE_READ)])) := by
  constructor
  · have hb := unreadLoop_calls_le srv (streamIdFor feed_id) limit limit.toNat st [] none
      (by simp only [List.length_nil, Nat.cast_zero, sub_zero]; omega)
    simp only [List.length_nil, Nat.cast_zero, sub_zero] at hb
    rw [get_unread_articles]
    rcases hloop : unreadLoop srv st (streamIdFor feed_id) limit [] none with ⟨res, lcalls⟩
    rw [hloop] at hb
    rcases res with e | ⟨articles, st2⟩ <;> simpa using hb
  · intro t page hst hpos hpage hitems
    have hpage' : srv.stream (streamIdFor feed_id)
        (min (limit - ((List.length ([] : List Article) : Nat) : Int)) 100)
        (optTruthy none) (optTruthy (some STATE_READ)) = .ok (200, page) := by
      simp only [List.length_nil, Nat.cast_zero, sub_zero]
      rw [show optTruthy none = none from rfl,
        show optTruthy (some STATE_READ) = some STATE_READ from by decide]
      exact hpage
    have hbrk : contIsTruthy page.continuation = false ∨
        (page.items.length : Int) < min (limit - ((List.length ([] : List Article) : Nat) : Int)) 100 := by
      right
      rw [hitems]
      simp only [List.length_nil, Nat.cast_zero, sub_zero]
      omega
    rw [get_unread_articles, unreadLoop.eq_def,
      dif_pos (by simp only [List.length_nil, Nat.cast_zero]; omega)]
    rw [get_stream_contents_cached srv st t (streamIdFor feed_id)
      (min (limit - ((List.length ([] : List Article) : Nat) : Int)) 100) none
      (some STATE_READ) page hst hpage']
    dsimp only
    rw [dif_pos hbrk]
    rw [hitems]
    simp only [List.append_nil, List.take_nil]
    rw [show optTruthy none = none from rfl,
      show optTruthy (some STATE_READ) = some STATE_READ from by decide]
    simp only [List.length_nil, Nat.cast_zero, sub_zero]

/-- C2 witness: five-article budget against the zero-item mock stops
after one page request. -/
theorem unread_pagination_terminates_witness :
    countCalls isStreamCall (get_unread_articles zeroItemSrv stAuthed 5 none).2 ≤ (5 : Int).toNat
    ∧ get_unread_articles zeroItemSrv stAuthed 5 none =
        (.ok ([], stAuthed),
         [.streamContents (streamIdFor none) (min 5 100) none (some STATE_READ)]) :=
  ⟨(unread_pagination_terminates zeroItemSrv stAuthed 5 none).1,
   (unread_pagination_terminates zeroItemSrv stAuthed 5 none).2 "tok"
     { id := "s", items := [], continuation := some "ct" } rfl (by decide) rfl rfl⟩

/-- C9 witness: one call and three consecutive calls against the mock
server. -/
theorem edit_tag_fresh_action_token_witness :
    (edit_tag fullSrv stAuthed ["1"] (some STATE_READ) none).2 =
      [.tokenFetch, .editTagPost (editTagFormData (pyStrip "tok2\n") ["1"] (some STATE_READ) none)]
    ∧ countCalls isTokenFetch (editTagN fullSrv ["1"] (some STATE_READ) none 3 stAuthed).2 = 3 :=
  ⟨(edit_tag_fresh_action_token fullSrv stAuthed "tok" "tok2\n" ["1"] (some STATE_READ) none
      rfl rfl (fun _ => ⟨"OK\n", rfl⟩) (by decide)).1,
   (edit_tag_fresh_action_token fullSrv stAuthed "tok" "tok2\n" ["1"] (some STATE_READ) none
      rfl rfl (fun _ => ⟨"OK\n", rfl⟩) (by decide)).2 3⟩

end FreshRSS
